import Mathlib

/-!
Verification development for the datadog_enum.py enumeration tool
(repository l0lsec/datadogenumerator, file src/datadog_enum.py).

The program is shallowly embedded: HTTP transport outcomes are an input
(a function from call index to outcome), machine time is an integer epoch
timestamp threaded through the run state, terminal output is a list of the
strings passed to print, and the issued HTTP requests are recorded in a
trace.  Every definition is a direct transliteration of the corresponding
Python function.
-/

namespace DatadogEnum

/-- Parsed JSON values, as produced by Python `response.json()`. -/
inductive Json where
  | null
  | bool (b : Bool)
  | num (n : Int)
  | str (s : String)
  | arr (elems : List Json)
  | obj (fields : List (String × Json))

/-- Python truthiness of a parsed JSON value (`if data:`): None, False, 0,
the empty string, the empty list and the empty dict are falsy. -/
def Json.truthy : Json → Bool
  | .null => false
  | .bool b => b
  | .num n => n != 0
  | .str s => s != ""
  | .arr xs => !xs.isEmpty
  | .obj fs => !fs.isEmpty

/-- Python `dict.get(key)` on a parsed JSON object; `none` when the key is
absent or the value is not a dict. -/
def Json.get? (j : Json) (key : String) : Option Json :=
  match j with
  | .obj fields => (fields.find? (fun p => p.1 == key)).map (fun p => p.2)
  | _ => none

/-- Python `dict.get(key, default)` on a parsed JSON object. -/
def Json.getD (j : Json) (key : String) (d : Json) : Json :=
  (j.get? key).getD d

/-- Python `repr` of a parsed JSON value (as used by `str` on lists and
dicts).  `\x27` is the single-quote character used by Python repr of
strings. -/
def Json.pyRepr : Json → String
  | .null => "None"
  | .bool true => "True"
  | .bool false => "False"
  | .num n => toString n
  | .str s => "\x27" ++ s ++ "\x27"
  | .arr xs => "[" ++ ", ".intercalate (xs.attach.map (fun x => Json.pyRepr x.1)) ++ "]"
  | .obj fs => "\x7b" ++ ", ".intercalate (fs.attach.map
      (fun p => "\x27" ++ p.1.1 ++ "\x27: " ++ Json.pyRepr p.1.2)) ++ "\x7d"
decreasing_by
  · have := List.sizeOf_lt_of_mem x.2
    simp at this ⊢
    omega
  · obtain ⟨⟨k, v⟩, hp⟩ := p
    have := List.sizeOf_lt_of_mem hp
    simp at this ⊢
    omega

/-- Python `str` of a parsed JSON value, as interpolated by an f-string:
a string is printed verbatim, everything else as its repr. -/
def Json.pyStr : Json → String
  | .str s => s
  | j => Json.pyRepr j

/-- Iterating / taking the length of a JSON value; at every call site of the
program the value is a JSON array (the defensive defaults in the source
supply `[]`). -/
def Json.items : Json → List Json
  | .arr xs => xs
  | _ => []

/-- Truthiness of the optional parsed body returned by test_endpoint
(`if success and data:`): Python None is falsy. -/
def truthyOpt : Option Json → Bool
  | none => false
  | some j => j.truthy

/-- ANSI color escapes of the `Colors` class. -/
def Colors.GREEN : String := "\x1b[92m"

def Colors.RED : String := "\x1b[91m"

def Colors.YELLOW : String := "\x1b[93m"

def Colors.BLUE : String := "\x1b[94m"

def Colors.CYAN : String := "\x1b[96m"

def Colors.BOLD : String := "\x1b[1m"

def Colors.END : String := "\x1b[0m"

/-- The line printed by `print_success`. -/
def print_success (text : String) : String :=
  Colors.GREEN ++ "[✓] " ++ text ++ Colors.END

/-- The line printed by `print_error`. -/
def print_error (text : String) : String :=
  Colors.RED ++ "[✗] " ++ text ++ Colors.END

/-- The line printed by `print_info`. -/
def print_info (text : String) : String :=
  Colors.BLUE ++ "[i] " ++ text ++ Colors.END

/-- The line printed by `print_warning`. -/
def print_warning (text : String) : String :=
  Colors.YELLOW ++ "[!] " ++ text ++ Colors.END

/-- Sixty equals signs, Python `'='*60`. -/
def sep60 : String := String.mk (List.replicate 60 (Char.ofNat 61))

/-- The three lines printed by `print_header`. -/
def print_header_lines (text : String) : List String :=
  ["\n" ++ Colors.BOLD ++ Colors.CYAN ++ sep60 ++ Colors.END,
   Colors.BOLD ++ Colors.CYAN ++ text ++ Colors.END,
   Colors.BOLD ++ Colors.CYAN ++ sep60 ++ Colors.END]

/-- HTTP method of a probe; every call site passes "GET" or "POST". -/
inductive Method where
  | GET
  | POST

/-- An HTTP response as seen by the script: status code, raw body text, and
the outcome of `response.json()` (`Except.error` models the parse
exception, carrying `str(e)`). -/
structure HttpResponse where
  status_code : Nat
  text : String
  json : Except String Json

/-- Outcome of one call into the `requests` library: either a response, or
an exception carrying `str(e)` (timeout, DNS failure, connection refused,
malformed response, ...). -/
inductive Transport where
  | resp (r : HttpResponse)
  | exn (msg : String)

/-- One issued HTTP request, as recorded for the run trace. -/
structure Request where
  method : Method
  url : String
  headers : List (String × String)
  body : Option Json

/-- Headers built by `get_headers()` from the two configured credential
values: DD-API-KEY always, DD-APPLICATION-KEY only when APP_KEY is
non-empty (Python truthiness of the string). -/
def get_headers (API_KEY APP_KEY : String) : List (String × String) :=
  let headers := [("DD-API-KEY", API_KEY), ("Content-Type", "application/json")]
  if APP_KEY != "" then headers ++ [("DD-APPLICATION-KEY", APP_KEY)] else headers

/-- State of one run: the global configuration (API_KEY, APP_KEY, BASE_URL),
the integer epoch timestamp returned by datetime.now().timestamp(), the
transport environment (outcome of the k-th HTTP call), the number of calls
made, the issued-request trace, the printed lines, and the trace of
print_header titles (one per section entered). -/
structure RunState where
  API_KEY : String
  APP_KEY : String
  BASE_URL : String
  now : Int
  env : Nat → Transport
  calls : Nat
  requests : List Request
  output : List String
  sections : List String

/-- Append one printed line to the output. -/
def RunState.print (s : RunState) (line : String) : RunState :=
  { s with output := s.output ++ [line] }

/-- The `print_header` call that opens each section: emits its three lines
and records the section title (the instrumentation of reporter
invocation). -/
def RunState.print_header (s : RunState) (text : String) : RunState :=
  { s with output := s.output ++ print_header_lines text,
           sections := s.sections ++ [text] }

/-- Core of `test_endpoint`: given the transport outcome, the returned
`(success, data)` pair and the lines the function prints.  Mirrors the
`try`/`except` body: a 200 prints the ACCESSIBLE line (and the description
line when a description was supplied) before `response.json()` is
evaluated; an empty body yields the empty dict without parsing; a parse
exception falls into the `except` clause; 403, 401, 404 and any other
status return `(False, None)` with their one status line; any exception
from the call itself returns `(False, None)` with an error line carrying
`str(e)`. -/
def test_endpoint_core (name description : String) (t : Transport) :
    (Bool × Option Json) × List String :=
  match t with
  | .exn e => ((false, none), [print_error (name ++ ": Error - " ++ e)])
  | .resp response =>
    if response.status_code = 200 then
      let lines := [print_success (name ++ ": ACCESSIBLE")] ++
        (if description != "" then [print_info ("  → " ++ description)] else [])
      match (if response.text != "" then response.json else Except.ok (Json.obj [])) with
      | .ok j => ((true, some j), lines)
      | .error e => ((false, none), lines ++ [print_error (name ++ ": Error - " ++ e)])
    else if response.status_code = 403 then
      ((false, none), [print_error (name ++ ": FORBIDDEN (403)")])
    else if response.status_code = 401 then
      ((false, none), [print_error (name ++ ": UNAUTHORIZED (401)")])
    else if response.status_code = 404 then
      ((false, none), [print_warning (name ++ ": NOT FOUND (404)")])
    else
      ((false, none), [print_warning (name ++ ": Status " ++ toString response.status_code)])

/-- `test_endpoint(name, method, endpoint, data, description)`: builds the
URL from the configured BASE_URL, issues one HTTP request with the
`get_headers()` headers (recorded in the trace), consumes the next
transport outcome, and classifies it with `test_endpoint_core`. -/
def test_endpoint (name : String) (method : Method) (endpoint : String)
    (data : Option Json) (description : String) (s : RunState) :
    (Bool × Option Json) × RunState :=
  let url := s.BASE_URL ++ endpoint
  let eff := test_endpoint_core name description (s.env s.calls)
  (eff.1,
   { s with calls := s.calls + 1,
            requests := s.requests ++ [⟨method, url, get_headers s.API_KEY s.APP_KEY, data⟩],
            output := s.output ++ eff.2 })

/-- The parsed body under the `if success and data:` guard; the guard
ensures `data` is not Python None there, `Json.null` is never reached. -/
def theData (data : Option Json) : Json := data.getD Json.null

/-- `validate_api_key()`: probes /api/v1/validate and returns `success`. -/
def validate_api_key (s : RunState) : Bool × RunState :=
  let s := s.print_header "VALIDATING API KEY"
  let r := test_endpoint "API Key Validation" Method.GET "/api/v1/validate" none
    "Confirms the API key is valid" s
  let success := r.1.1
  let data := r.1.2
  let s := r.2
  let s := if success && truthyOpt data then
      s.print (print_info ("  Valid: " ++ ((theData data).getD "valid" (Json.str "Unknown")).pyStr))
    else s
  (success, s)

/-- `enumerate_organization()`. -/
def enumerate_organization (s : RunState) : RunState :=
  let s := s.print_header "ORGANIZATION INFO"
  let r := test_endpoint "Organization Details" Method.GET "/api/v1/org" none
    "Organization settings and info" s
  let s := r.2
  if r.1.1 && truthyOpt r.1.2 then
    let org := (theData r.1.2).getD "org" (Json.obj [])
    let s := s.print (print_info ("  Name: " ++ (org.getD "name" (Json.str "N/A")).pyStr))
    let s := s.print (print_info ("  Public ID: " ++ (org.getD "public_id" (Json.str "N/A")).pyStr))
    s.print (print_info ("  Created: " ++ (org.getD "created" (Json.str "N/A")).pyStr))
  else s

/-- The per-user line printed by `enumerate_users`. -/
def userLine (user : Json) : String :=
  let attrs := user.getD "attributes" (Json.obj [])
  print_info ("    - " ++ (attrs.getD "email" (Json.str "N/A")).pyStr ++ " (" ++
    (attrs.getD "status" (Json.str "N/A")).pyStr ++ ")")

/-- `enumerate_users()`: prints the user count, the first 10 users, and an
exact-count "... and N more" line when there are more than 10. -/
def enumerate_users (s : RunState) : RunState :=
  let s := s.print_header "USERS"
  let r := test_endpoint "List Users" Method.GET "/api/v2/users" none
    "All users in the organization" s
  let s := r.2
  if r.1.1 && truthyOpt r.1.2 then
    let users := ((theData r.1.2).getD "data" (Json.arr [])).items
    let s := s.print (print_info ("  Found " ++ toString users.length ++ " users"))
    let s := (users.take 10).foldl (fun acc user => acc.print (userLine user)) s
    if users.length > 10 then
      s.print (print_info ("    ... and " ++ toString (users.length - 10) ++ " more"))
    else s
  else s

/-- The per-key line printed by `enumerate_api_keys`. -/
def apiKeyLine (key : Json) : String :=
  let attrs := key.getD "attributes" (Json.obj [])
  print_info ("    - " ++ (attrs.getD "name" (Json.str "N/A")).pyStr ++ " (Last 4: ..." ++
    (attrs.getD "last4" (Json.str "N/A")).pyStr ++ ")")

/-- `enumerate_api_keys()`: prints the key count and the first 5 keys; the
source has no trailing "... and N more" line in this reporter. -/
def enumerate_api_keys (s : RunState) : RunState :=
  let s := s.print_header "API KEYS"
  let r := test_endpoint "List API Keys" Method.GET "/api/v2/api_keys" none
    "All API keys in the organization" s
  let s := r.2
  if r.1.1 && truthyOpt r.1.2 then
    let keys := ((theData r.1.2).getD "data" (Json.arr [])).items
    let s := s.print (print_info ("  Found " ++ toString keys.length ++ " API keys"))
    (keys.take 5).foldl (fun acc key => acc.print (apiKeyLine key)) s
  else s

/-- `enumerate_app_keys()`. -/
def enumerate_app_keys (s : RunState) : RunState :=
  let s := s.print_header "APPLICATION KEYS"
  let r := test_endpoint "List Application Keys" Method.GET "/api/v2/application_keys" none
    "All application keys" s
  let s := r.2
  if r.1.1 && truthyOpt r.1.2 then
    let keys := ((theData r.1.2).getD "data" (Json.arr [])).items
    s.print (print_info ("  Found " ++ toString keys.length ++ " application keys"))
  else s

/-- The per-dashboard line printed by `enumerate_dashboards`. -/
def dashboardLine (dash : Json) : String :=
  print_info ("    - " ++ (dash.getD "title" (Json.str "N/A")).pyStr ++ " (ID: " ++
    (dash.getD "id" (Json.str "N/A")).pyStr ++ ")")

/-- `enumerate_dashboards()`. -/
def enumerate_dashboards (s : RunState) : RunState :=
  let s := s.print_header "DASHBOARDS"
  let r := test_endpoint "List Dashboards" Method.GET "/api/v1/dashboard" none
    "All dashboards" s
  let s := r.2
  if r.1.1 && truthyOpt r.1.2 then
    let dashboards := ((theData r.1.2).getD "dashboards" (Json.arr [])).items
    let s := s.print (print_info ("  Found " ++ toString dashboards.length ++ " dashboards"))
    let s := (dashboards.take 5).foldl (fun acc dash => acc.print (dashboardLine dash)) s
    if dashboards.length > 5 then
      s.print (print_info ("    ... and " ++ toString (dashboards.length - 5) ++ " more"))
    else s
  else s

/-- The per-monitor line printed by `enumerate_monitors`. -/
def monitorLine (mon : Json) : String :=
  print_info ("    - " ++ (mon.getD "name" (Json.str "N/A")).pyStr ++ " (Type: " ++
    (mon.getD "type" (Json.str "N/A")).pyStr ++ ")")

/-- `enumerate_monitors()`: the body only summarizes when the parsed body is
a JSON list (`isinstance(data, list)`). -/
def enumerate_monitors (s : RunState) : RunState :=
  let s := s.print_header "MONITORS"
  let r := test_endpoint "List Monitors" Method.GET "/api/v1/monitor" none
    "All configured monitors/alerts" s
  let s := r.2
  if r.1.1 && truthyOpt r.1.2 then
    match theData r.1.2 with
    | Json.arr l =>
      let s := s.print (print_info ("  Found " ++ toString l.length ++ " monitors"))
      let s := (l.take 5).foldl (fun acc mon => acc.print (monitorLine mon)) s
      if l.length > 5 then
        s.print (print_info ("    ... and " ++ toString (l.length - 5) ++ " more"))
      else s
    | _ => s
  else s

/-- The per-host line printed by `enumerate_hosts`. -/
def hostLine (host : Json) : String :=
  print_info ("    - " ++ (host.getD "name" (Json.str "N/A")).pyStr ++ " (Apps: " ++
    ", ".intercalate ((((host.getD "apps" (Json.arr [])).items).take 3).map Json.pyStr) ++ ")")

/-- `enumerate_hosts()`: prints the total (the `total_matching` field when
present, the host-list length otherwise), the first 5 hosts, and a
count-less "... and more" line when there are more than 5. -/
def enumerate_hosts (s : RunState) : RunState :=
  let s := s.print_header "HOSTS"
  let r := test_endpoint "List Hosts" Method.GET "/api/v1/hosts" none
    "All monitored hosts" s
  let s := r.2
  if r.1.1 && truthyOpt r.1.2 then
    let hosts := ((theData r.1.2).getD "host_list" (Json.arr [])).items
    let total := match (theData r.1.2).get? "total_matching" with
      | some v => v.pyStr
      | none => toString hosts.length
    let s := s.print (print_info ("  Total hosts: " ++ total))
    let s := (hosts.take 5).foldl (fun acc host => acc.print (hostLine host)) s
    if hosts.length > 5 then
      s.print (print_info "    ... and more")
    else s
  else s

/-- The per-metric line printed by `enumerate_metrics`. -/
def metricLine (metric : Json) : String :=
  print_info ("    - " ++ metric.pyStr)

/-- `enumerate_metrics()`: the query window start is
`int((datetime.now() - timedelta(hours=1)).timestamp())`, i.e. the current
epoch second minus 3600. -/
def enumerate_metrics (s : RunState) : RunState :=
  let s := s.print_header "METRICS"
  let r := test_endpoint "List Metrics" Method.GET
    ("/api/v1/metrics?from=" ++ toString (s.now - 3600)) none
    "Active metrics in the last hour" s
  let s := r.2
  if r.1.1 && truthyOpt r.1.2 then
    let metrics := ((theData r.1.2).getD "metrics" (Json.arr [])).items
    let s := s.print (print_info ("  Found " ++ toString metrics.length ++ " active metrics"))
    let s := (metrics.take 10).foldl (fun acc metric => acc.print (metricLine metric)) s
    if metrics.length > 10 then
      s.print (print_info ("    ... and " ++ toString (metrics.length - 10) ++ " more"))
    else s
  else s

/-- The fixed integrations sub-list of `enumerate_integrations`. -/
def integrationsList : List (String × String) :=
  [("AWS", "/api/v1/integration/aws"),
   ("Azure", "/api/v1/integration/azure"),
   ("GCP", "/api/v1/integration/gcp"),
   ("Slack", "/api/v1/integration/slack"),
   ("PagerDuty", "/api/v1/integration/pagerduty"),
   ("Webhooks", "/api/v1/integration/webhooks/configuration/webhooks")]

/-- `enumerate_integrations()`: probes each of the six fixed integrations
with a GET and no body (the `data` and `description` defaults). -/
def enumerate_integrations (s : RunState) : RunState :=
  let s := s.print_header "INTEGRATIONS"
  integrationsList.foldl
    (fun acc p => (test_endpoint (p.1 ++ " Integration") Method.GET p.2 none "" acc).2) s

/-- `enumerate_logs()`. -/
def enumerate_logs (s : RunState) : RunState :=
  let s := s.print_header "LOGS"
  let s := (test_endpoint "Log Indexes" Method.GET "/api/v1/logs/config/indexes" none
    "Log index configurations" s).2
  (test_endpoint "Log Pipelines" Method.GET "/api/v1/logs/config/pipelines" none
    "Log processing pipelines" s).2

/-- `enumerate_apm()`. -/
def enumerate_apm (s : RunState) : RunState :=
  let s := s.print_header "APM / TRACING"
  (test_endpoint "Services" Method.GET "/api/v1/services" none "APM services" s).2

/-- `enumerate_synthetics()`. -/
def enumerate_synthetics (s : RunState) : RunState :=
  let s := s.print_header "SYNTHETICS"
  let r := test_endpoint "Synthetic Tests" Method.GET "/api/v1/synthetics/tests" none
    "Synthetic monitoring tests" s
  let s := r.2
  if r.1.1 && truthyOpt r.1.2 then
    let tests := ((theData r.1.2).getD "tests" (Json.arr [])).items
    s.print (print_info ("  Found " ++ toString tests.length ++ " synthetic tests"))
  else s

/-- `enumerate_notebooks()`. -/
def enumerate_notebooks (s : RunState) : RunState :=
  let s := s.print_header "NOTEBOOKS"
  let r := test_endpoint "List Notebooks" Method.GET "/api/v1/notebooks" none
    "All notebooks" s
  let s := r.2
  if r.1.1 && truthyOpt r.1.2 then
    let notebooks := ((theData r.1.2).getD "data" (Json.arr [])).items
    s.print (print_info ("  Found " ++ toString notebooks.length ++ " notebooks"))
  else s

/-- `enumerate_slos()`. -/
def enumerate_slos (s : RunState) : RunState :=
  let s := s.print_header "SERVICE LEVEL OBJECTIVES (SLOs)"
  let r := test_endpoint "List SLOs" Method.GET "/api/v1/slo" none "All SLOs" s
  let s := r.2
  if r.1.1 && truthyOpt r.1.2 then
    let slos := ((theData r.1.2).getD "data" (Json.arr [])).items
    s.print (print_info ("  Found " ++ toString slos.length ++ " SLOs"))
  else s

/-- `enumerate_downtimes()`. -/
def enumerate_downtimes (s : RunState) : RunState :=
  let s := s.print_header "DOWNTIMES"
  let r := test_endpoint "List Downtimes" Method.GET "/api/v1/downtime" none
    "Scheduled downtimes" s
  let s := r.2
  if r.1.1 && truthyOpt r.1.2 then
    match theData r.1.2 with
    | Json.arr l => s.print (print_info ("  Found " ++ toString l.length ++ " downtimes"))
    | _ => s
  else s

/-- `enumerate_events()`: `now` is the current epoch second and the window
start is `now - 86400`. -/
def enumerate_events (s : RunState) : RunState :=
  let s := s.print_header "EVENTS"
  let nowSec := s.now
  let start := nowSec - 86400
  let r := test_endpoint "Recent Events" Method.GET
    ("/api/v1/events?start=" ++ toString start ++ "&end=" ++ toString nowSec) none
    "Events from last 24 hours" s
  let s := r.2
  if r.1.1 && truthyOpt r.1.2 then
    let events := ((theData r.1.2).getD "events" (Json.arr [])).items
    s.print (print_info ("  Found " ++ toString events.length ++ " events in last 24h"))
  else s

/-- `enumerate_security()`. -/
def enumerate_security (s : RunState) : RunState :=
  let s := s.print_header "SECURITY"
  let s := (test_endpoint "Security Monitoring Rules" Method.GET
    "/api/v2/security_monitoring/rules" none "Security detection rules" s).2
  (test_endpoint "Security Signals" Method.GET
    "/api/v2/security_monitoring/signals" none "Security signals/alerts" s).2

/-- `enumerate_rum()`. -/
def enumerate_rum (s : RunState) : RunState :=
  let s := s.print_header "REAL USER MONITORING (RUM)"
  (test_endpoint "RUM Applications" Method.GET "/api/v2/rum/applications" none
    "RUM application configurations" s).2

/-- `enumerate_service_accounts()`: the probe result is bound but unused. -/
def enumerate_service_accounts (s : RunState) : RunState :=
  let s := s.print_header "SERVICE ACCOUNTS"
  (test_endpoint "Service Accounts" Method.GET "/api/v2/service_accounts" none
    "Service accounts" s).2

/-- The per-role line printed by `enumerate_roles`. -/
def roleLine (role : Json) : String :=
  let attrs := role.getD "attributes" (Json.obj [])
  print_info ("    - " ++ (attrs.getD "name" (Json.str "N/A")).pyStr)

/-- `enumerate_roles()`. -/
def enumerate_roles (s : RunState) : RunState :=
  let s := s.print_header "ROLES & PERMISSIONS"
  let r := test_endpoint "List Roles" Method.GET "/api/v2/roles" none "RBAC roles" s
  let s := r.2
  if r.1.1 && truthyOpt r.1.2 then
    let roles := ((theData r.1.2).getD "data" (Json.arr [])).items
    let s := s.print (print_info ("  Found " ++ toString roles.length ++ " roles"))
    (roles.take 5).foldl (fun acc role => acc.print (roleLine role)) s
  else s

/-- The `--region` choices accepted by argparse. -/
def region_choices : List String := ["us1", "us3", "us5", "eu", "ap1"]

/-- Parsed command-line arguments. -/
structure Args where
  api_key : Option String
  app_key : Option String
  region : String

/-- `parser.parse_args()`: the two positionals are optional (`nargs="?"`),
`--region` defaults to "us1", and a region outside the enumerated choices
makes argparse exit with status 2 before `main` proceeds. -/
def parse_args (api_key app_key : Option String) (region : Option String) :
    Except Nat Args :=
  match region with
  | none => Except.ok ⟨api_key, app_key, "us1"⟩
  | some r =>
    if region_choices.contains r then Except.ok ⟨api_key, app_key, r⟩
    else Except.error 2

/-- The `regions` dict of `main`. -/
def regions : List (String × String) :=
  [("us1", "https://api.datadoghq.com"),
   ("us3", "https://api.us3.datadoghq.com"),
   ("us5", "https://api.us5.datadoghq.com"),
   ("eu", "https://api.datadoghq.eu"),
   ("ap1", "https://api.ap1.datadoghq.com")]

/-- `regions.get(args.region, "https://api.datadoghq.com")`. -/
def regionBaseURL (r : String) : String :=
  (regions.lookup r).getD "https://api.datadoghq.com"

/-- Resolution of one credential: the module-level global starts as the
environment variable value, then `if args.x: X = args.x` overrides it when
the argument is present and non-empty (Python truthiness). -/
def resolveKey (arg : Option String) (envVal : String) : String :=
  match arg with
  | some k => if k = "" then envVal else k
  | none => envVal

/-- The ASCII-art banner printed by `main` (one print call, f-string fields
already substituted). -/
def banner : String :=
  "\n" ++ Colors.BOLD ++ Colors.CYAN ++ "\n" ++
  "    ██████╗  █████╗ ████████╗ █████╗ ██████╗  ██████╗  ██████╗ \n" ++
  "    ██╔══██╗██╔══██╗╚══██╔══╝██╔══██╗██╔══██╗██╔═══██╗██╔════╝ \n" ++
  "    ██║  ██║███████║   ██║   ███████║██║  ██║██║   ██║██║  ███╗\n" ++
  "    ██║  ██║██╔══██║   ██║   ██╔══██║██║  ██║██║   ██║██║   ██║\n" ++
  "    ██████╔╝██║  ██║   ██║   ██║  ██║██████╔╝╚██████╔╝╚██████╔╝\n" ++
  "    ╚═════╝ ╚═╝  ╚═╝   ╚═╝   ╚═╝  ╚═╝╚═════╝  ╚═════╝  ╚═════╝ \n" ++
  "                                                               \n" ++
  "    ███████╗███╗   ██╗██╗   ██╗███╗   ███╗███████╗██████╗      \n" ++
  "    ██╔════╝████╗  ██║██║   ██║████╗ ████║██╔════╝██╔══██╗     \n" ++
  "    █████╗  ██╔██╗ ██║██║   ██║██╔████╔██║█████╗  ██████╔╝     \n" ++
  "    ██╔══╝  ██║╚██╗██║██║   ██║██║╚██╔╝██║██╔══╝  ██╔══██╗     \n" ++
  "    ███████╗██║ ╚████║╚██████╔╝██║ ╚═╝ ██║███████╗██║  ██║     \n" ++
  "    ╚══════╝╚═╝  ╚═══╝ ╚═════╝ ╚═╝     ╚═╝╚══════╝╚═╝  ╚═╝     \n" ++
  Colors.END ++ "\n" ++
  Colors.YELLOW ++ "    ╔" ++ String.mk (List.replicate 58 (Char.ofNat 0x2550)) ++ "╗\n" ++
  "    ║  Datadog API Key Enumeration Tool v1.0.0                  ║\n" ++
  "    ║  Author: l0lsec                                         ║\n" ++
  "    ║  GitHub: github.com/l0lsec                                 ║\n" ++
  "    ╚" ++ String.mk (List.replicate 58 (Char.ofNat 0x2550)) ++ "╝" ++ Colors.END ++ "\n"

/-- The error lines printed when no API key is resolvable. -/
def missingKeyLines : List String :=
  [Colors.RED ++ "Error: API Key is required" ++ Colors.END,
   "Usage: python3 datadog_enum.py <API_KEY> [APP_KEY] [--region REGION]",
   "Or set DD_API_KEY environment variable"]

/-- Observable result of one program run: the exit status (0 when `main`
falls off its end, 1 from `sys.exit(1)`, 2 from argparse), the issued HTTP
requests, the printed lines, and the section-title trace. -/
structure MainResult where
  exitCode : Nat
  requests : List Request
  output : List String
  sections : List String

/-- The fixed sequence of print_header titles of a fully successful run:
the validation header, the twenty section reporters in the order `main`
calls them, and the completion banner. -/
def full_section_titles : List String :=
  ["VALIDATING API KEY",
   "ORGANIZATION INFO", "USERS", "API KEYS", "APPLICATION KEYS",
   "ROLES & PERMISSIONS", "SERVICE ACCOUNTS", "HOSTS", "METRICS",
   "DASHBOARDS", "MONITORS", "EVENTS", "DOWNTIMES",
   "SERVICE LEVEL OBJECTIVES (SLOs)", "NOTEBOOKS", "LOGS", "APM / TRACING",
   "SYNTHETICS", "REAL USER MONITORING (RUM)", "INTEGRATIONS", "SECURITY",
   "ENUMERATION COMPLETE"]

/-- `main()`: parses arguments, resolves the credentials (CLI over
environment), fails fast with status 1 when no API key is resolvable,
resolves the base URL from the region, prints the banner and warnings,
validates the key (exit 1 on failure), then runs every section reporter in
order and finishes (exit status 0).  `DD_API_KEY` / `DD_APP_KEY` are the
environment variables, `now` the integer epoch timestamp, `env` the
transport environment. -/
def main (DD_API_KEY DD_APP_KEY : String)
    (arg_api_key arg_app_key arg_region : Option String)
    (now : Int) (env : Nat → Transport) : MainResult :=
  match parse_args arg_api_key arg_app_key arg_region with
  | .error code => ⟨code, [], [], []⟩
  | .ok args =>
    let API_KEY := resolveKey args.api_key DD_API_KEY
    let APP_KEY := resolveKey args.app_key DD_APP_KEY
    if API_KEY = "" then
      ⟨1, [], missingKeyLines, []⟩
    else
      let BASE_URL := regionBaseURL args.region
      let s : RunState := ⟨API_KEY, APP_KEY, BASE_URL, now, env, 0, [], [], []⟩
      let s := s.print banner
      let s := s.print (print_info ("Using API endpoint: " ++ BASE_URL))
      let s := if APP_KEY = "" then
          (s.print (print_warning
            "No Application Key provided - some endpoints may be inaccessible")).print
            (print_warning
              "API keys can only submit data, Application keys are needed to read data")
        else s
      let v := validate_api_key s
      if v.1 then
        let s := v.2
        let s := enumerate_organization s
        let s := enumerate_users s
        let s := enumerate_api_keys s
        let s := enumerate_app_keys s
        let s := enumerate_roles s
        let s := enumerate_service_accounts s
        let s := enumerate_hosts s
        let s := enumerate_metrics s
        let s := enumerate_dashboards s
        let s := enumerate_monitors s
        let s := enumerate_events s
        let s := enumerate_downtimes s
        let s := enumerate_slos s
        let s := enumerate_notebooks s
        let s := enumerate_logs s
        let s := enumerate_apm s
        let s := enumerate_synthetics s
        let s := enumerate_rum s
        let s := enumerate_integrations s
        let s := enumerate_security s
        let s := s.print_header "ENUMERATION COMPLETE"
        let s := s.print (print_info "Review the results above to see what your API key can access")
        let s := s.print (print_info "Green [✓] = Accessible, Red [✗] = Forbidden/Unauthorized")
        ⟨0, s.requests, s.output, s.sections⟩
      else
        let s := v.2.print (print_error "API Key validation failed. Check your key and try again.")
        ⟨1, s.requests, s.output, s.sections⟩

/-- A 200 response with a non-empty body parsing to an object holding a
JSON array under `field`, as returned by the list endpoints. -/
def listBody (field : String) (items : List Json) : Transport :=
  Transport.resp ⟨200, "x", Except.ok (Json.obj [(field, Json.arr items)])⟩

/-- Twelve API-key items of the shape the key-list endpoint returns. -/
def twelveKeys : List Json :=
  (List.range 12).map (fun i => Json.obj
    [("attributes", Json.obj [("name", Json.str ("key" ++ toString i)),
                              ("last4", Json.str "1234")])])

/-- A run state whose next transport outcome is an accessible key list of
twelve items. -/
def c5state : RunState :=
  ⟨"api", "app", "https://api.datadoghq.com", 0,
   (fun _ => listBody "data" twelveKeys), 0, [], [], []⟩

/-- Whether the word "more" occurs anywhere in a character list (used to
show an output has no "... and N more" trailing line). -/
def containsMore : List Char → Bool
  | [] => false
  | c :: rest => List.isPrefixOf "more".data (c :: rest) || containsMore rest

/-- A run state whose transport raises on every call. -/
def c2state : RunState :=
  ⟨"k", "", "https://api.datadoghq.com", 0,
   (fun _ => Transport.exn "boom"), 0, [], [], []⟩

/-! Projection lemmas for the state operations. -/

@[simp] theorem print_output (s : RunState) (l : String) :
    (s.print l).output = s.output ++ [l] := rfl

@[simp] theorem print_sections (s : RunState) (l : String) :
    (s.print l).sections = s.sections := rfl

@[simp] theorem print_requests (s : RunState) (l : String) :
    (s.print l).requests = s.requests := rfl

@[simp] theorem print_calls (s : RunState) (l : String) :
    (s.print l).calls = s.calls := rfl

@[simp] theorem print_env (s : RunState) (l : String) :
    (s.print l).env = s.env := rfl

@[simp] theorem print_API_KEY (s : RunState) (l : String) :
    (s.print l).API_KEY = s.API_KEY := rfl

@[simp] theorem print_APP_KEY (s : RunState) (l : String) :
    (s.print l).APP_KEY = s.APP_KEY := rfl

@[simp] theorem print_BASE_URL (s : RunState) (l : String) :
    (s.print l).BASE_URL = s.BASE_URL := rfl

@[simp] theorem print_now (s : RunState) (l : String) :
    (s.print l).now = s.now := rfl

@[simp] theorem print_header_output (s : RunState) (t : String) :
    (s.print_header t).output = s.output ++ print_header_lines t := rfl

@[simp] theorem print_header_sections (s : RunState) (t : String) :
    (s.print_header t).sections = s.sections ++ [t] := rfl

@[simp] theorem print_header_requests (s : RunState) (t : String) :
    (s.print_header t).requests = s.requests := rfl

@[simp] theorem print_header_calls (s : RunState) (t : String) :
    (s.print_header t).calls = s.calls := rfl

@[simp] theorem print_header_env (s : RunState) (t : String) :
    (s.print_header t).env = s.env := rfl

@[simp] theorem print_header_API_KEY (s : RunState) (t : String) :
    (s.print_header t).API_KEY = s.API_KEY := rfl

@[simp] theorem print_header_APP_KEY (s : RunState) (t : String) :
    (s.print_header t).APP_KEY = s.APP_KEY := rfl

@[simp] theorem print_header_BASE_URL (s : RunState) (t : String) :
    (s.print_header t).BASE_URL = s.BASE_URL := rfl

@[simp] theorem print_header_now (s : RunState) (t : String) :
    (s.print_header t).now = s.now := rfl

@[simp] theorem test_endpoint_fst (n : String) (m : Method) (e : String)
    (d : Option Json) (desc : String) (s : RunState) :
    (test_endpoint n m e d desc s).1 =
      (test_endpoint_core n desc (s.env s.calls)).1 := rfl

@[simp] theorem test_endpoint_output (n : String) (m : Method) (e : String)
    (d : Option Json) (desc : String) (s : RunState) :
    (test_endpoint n m e d desc s).2.output =
      s.output ++ (test_endpoint_core n desc (s.env s.calls)).2 := rfl

@[simp] theorem test_endpoint_sections (n : String) (m : Method) (e : String)
    (d : Option Json) (desc : String) (s : RunState) :
    (test_endpoint n m e d desc s).2.sections = s.sections := rfl

@[simp] theorem test_endpoint_requests (n : String) (m : Method) (e : String)
    (d : Option Json) (desc : String) (s : RunState) :
    (test_endpoint n m e d desc s).2.requests =
      s.requests ++ [⟨m, s.BASE_URL ++ e, get_headers s.API_KEY s.APP_KEY, d⟩] := rfl

@[simp] theorem test_endpoint_calls (n : String) (m : Method) (e : String)
    (d : Option Json) (desc : String) (s : RunState) :
    (test_endpoint n m e d desc s).2.calls = s.calls + 1 := rfl

@[simp] theorem test_endpoint_env (n : String) (m : Method) (e : String)
    (d : Option Json) (desc : String) (s : RunState) :
    (test_endpoint n m e d desc s).2.env = s.env := rfl

@[simp] theorem test_endpoint_API_KEY (n : String) (m : Method) (e : String)
    (d : Option Json) (desc : String) (s : RunState) :
    (test_endpoint n m e d desc s).2.API_KEY = s.API_KEY := rfl

@[simp] theorem test_endpoint_APP_KEY (n : String) (m : Method) (e : String)
    (d : Option Json) (desc : String) (s : RunState) :
    (test_endpoint n m e d desc s).2.APP_KEY = s.APP_KEY := rfl

@[simp] theorem test_endpoint_BASE_URL (n : String) (m : Method) (e : String)
    (d : Option Json) (desc : String) (s : RunState) :
    (test_endpoint n m e d desc s).2.BASE_URL = s.BASE_URL := rfl

@[simp] theorem test_endpoint_now (n : String) (m : Method) (e : String)
    (d : Option Json) (desc : String) (s : RunState) :
    (test_endpoint n m e d desc s).2.now = s.now := rfl

/-- Folding a per-item print over a list appends the mapped lines and
changes nothing else. -/
theorem foldl_print (f : Json → String) (items : List Json) (s : RunState) :
    items.foldl (fun acc u => acc.print (f u)) s =
      { s with output := s.output ++ items.map f } := by
  induction items generalizing s with
  | nil => simp
  | cons x xs ih => rw [List.foldl_cons, ih]; simp [RunState.print]

/-! Per-reporter section-trace lemmas: every reporter records exactly its
own header title, whatever the transport outcomes. -/

theorem validate_api_key_success (s : RunState) :
    (validate_api_key s).1 =
      (test_endpoint_core "API Key Validation" "Confirms the API key is valid"
        (s.env s.calls)).1.1 := rfl

theorem validate_api_key_sections (s : RunState) :
    (validate_api_key s).2.sections = s.sections ++ ["VALIDATING API KEY"] := by
  unfold validate_api_key
  dsimp only
  split <;> simp

theorem enumerate_organization_sections (s : RunState) :
    (enumerate_organization s).sections = s.sections ++ ["ORGANIZATION INFO"] := by
  unfold enumerate_organization
  dsimp only
  split <;> simp

theorem enumerate_users_sections (s : RunState) :
    (enumerate_users s).sections = s.sections ++ ["USERS"] := by
  unfold enumerate_users
  dsimp only
  split
  · split <;> simp [foldl_print]
  · simp

theorem enumerate_api_keys_sections (s : RunState) :
    (enumerate_api_keys s).sections = s.sections ++ ["API KEYS"] := by
  unfold enumerate_api_keys
  dsimp only
  split <;> simp [foldl_print]

theorem enumerate_app_keys_sections (s : RunState) :
    (enumerate_app_keys s).sections = s.sections ++ ["APPLICATION KEYS"] := by
  unfold enumerate_app_keys
  dsimp only
  split <;> simp

theorem enumerate_roles_sections (s : RunState) :
    (enumerate_roles s).sections = s.sections ++ ["ROLES & PERMISSIONS"] := by
  unfold enumerate_roles
  dsimp only
  split <;> simp [foldl_print]

theorem enumerate_service_accounts_sections (s : RunState) :
    (enumerate_service_accounts s).sections = s.sections ++ ["SERVICE ACCOUNTS"] := by
  unfold enumerate_service_accounts
  simp

theorem enumerate_hosts_sections (s : RunState) :
    (enumerate_hosts s).sections = s.sections ++ ["HOSTS"] := by
  unfold enumerate_hosts
  dsimp only
  split
  · split <;> simp [foldl_print]
  · simp

theorem enumerate_metrics_sections (s : RunState) :
    (enumerate_metrics s).sections = s.sections ++ ["METRICS"] := by
  unfold enumerate_metrics
  dsimp only
  split
  · split <;> simp [foldl_print]
  · simp

theorem enumerate_dashboards_sections (s : RunState) :
    (enumerate_dashboards s).sections = s.sections ++ ["DASHBOARDS"] := by
  unfold enumerate_dashboards
  dsimp only
  split
  · split <;> simp [foldl_print]
  · simp

theorem enumerate_monitors_sections (s : RunState) :
    (enumerate_monitors s).sections = s.sections ++ ["MONITORS"] := by
  unfold enumerate_monitors
  dsimp only
  split
  · split <;> try split
    all_goals simp [foldl_print]
  · simp

theorem enumerate_events_sections (s : RunState) :
    (enumerate_events s).sections = s.sections ++ ["EVENTS"] := by
  unfold enumerate_events
  dsimp only
  split <;> simp

theorem enumerate_downtimes_sections (s : RunState) :
    (enumerate_downtimes s).sections = s.sections ++ ["DOWNTIMES"] := by
  unfold enumerate_downtimes
  dsimp only
  split
  · split <;> simp
  · simp

theorem enumerate_slos_sections (s : RunState) :
    (enumerate_slos s).sections = s.sections ++ ["SERVICE LEVEL OBJECTIVES (SLOs)"] := by
  unfold enumerate_slos
  dsimp only
  split <;> simp

theorem enumerate_notebooks_sections (s : RunState) :
    (enumerate_notebooks s).sections = s.sections ++ ["NOTEBOOKS"] := by
  unfold enumerate_notebooks
  dsimp only
  split <;> simp

theorem enumerate_logs_sections (s : RunState) :
    (enumerate_logs s).sections = s.sections ++ ["LOGS"] := by
  unfold enumerate_logs
  simp

theorem enumerate_apm_sections (s : RunState) :
    (enumerate_apm s).sections = s.sections ++ ["APM / TRACING"] := by
  unfold enumerate_apm
  simp

theorem enumerate_synthetics_sections (s : RunState) :
    (enumerate_synthetics s).sections = s.sections ++ ["SYNTHETICS"] := by
  unfold enumerate_synthetics
  dsimp only
  split <;> simp

theorem enumerate_rum_sections (s : RunState) :
    (enumerate_rum s).sections = s.sections ++ ["REAL USER MONITORING (RUM)"] := by
  unfold enumerate_rum
  simp

theorem enumerate_integrations_sections (s : RunState) :
    (enumerate_integrations s).sections = s.sections ++ ["INTEGRATIONS"] := by
  unfold enumerate_integrations
  simp [integrationsList, List.foldl_cons, List.foldl_nil]

theorem enumerate_security_sections (s : RunState) :
    (enumerate_security s).sections = s.sections ++ ["SECURITY"] := by
  unfold enumerate_security
  simp

/-- Composing the twenty section reporters appends exactly their twenty
header titles, whatever the transport outcomes. -/
theorem reporter_chain_sections (s : RunState) :
    (enumerate_security (enumerate_integrations (enumerate_rum (enumerate_synthetics
      (enumerate_apm (enumerate_logs (enumerate_notebooks (enumerate_slos
      (enumerate_downtimes (enumerate_events (enumerate_monitors (enumerate_dashboards
      (enumerate_metrics (enumerate_hosts (enumerate_service_accounts (enumerate_roles
      (enumerate_app_keys (enumerate_api_keys (enumerate_users
      (enumerate_organization s)))))))))))))))))))).sections =
    s.sections ++
      ["ORGANIZATION INFO", "USERS", "API KEYS", "APPLICATION KEYS",
       "ROLES & PERMISSIONS", "SERVICE ACCOUNTS", "HOSTS", "METRICS",
       "DASHBOARDS", "MONITORS", "EVENTS", "DOWNTIMES",
       "SERVICE LEVEL OBJECTIVES (SLOs)", "NOTEBOOKS", "LOGS", "APM / TRACING",
       "SYNTHETICS", "REAL USER MONITORING (RUM)", "INTEGRATIONS", "SECURITY"] := by
  simp [enumerate_security_sections, enumerate_integrations_sections,
    enumerate_rum_sections, enumerate_synthetics_sections, enumerate_apm_sections,
    enumerate_logs_sections, enumerate_notebooks_sections, enumerate_slos_sections,
    enumerate_downtimes_sections, enumerate_events_sections, enumerate_monitors_sections,
    enumerate_dashboards_sections, enumerate_metrics_sections, enumerate_hosts_sections,
    enumerate_service_accounts_sections, enumerate_roles_sections,
    enumerate_app_keys_sections, enumerate_api_keys_sections, enumerate_users_sections,
    enumerate_organization_sections]

/-- Shape of a run whose arguments parse, whose API key resolves, and whose
validation probe succeeds: exit status 0 and the full fixed section-title
sequence. -/
theorem main_run_valid (DD_API_KEY DD_APP_KEY : String)
    (arg_api_key arg_app_key arg_region : Option String)
    (now : Int) (env : Nat → Transport) (args : Args)
    (hp : parse_args arg_api_key arg_app_key arg_region = Except.ok args)
    (hk : resolveKey args.api_key DD_API_KEY ≠ "")
    (hv : (test_endpoint_core "API Key Validation" "Confirms the API key is valid"
      (env 0)).1.1 = true) :
    (main DD_API_KEY DD_APP_KEY arg_api_key arg_app_key arg_region now env).exitCode = 0 ∧
    (main DD_API_KEY DD_APP_KEY arg_api_key arg_app_key arg_region now env).sections =
      full_section_titles := by
  unfold main
  rw [hp]
  split
  next heq => exact Except.noConfusion heq
  next args2 heq =>
    injection heq with h
    subst h
    rw [if_neg hk]
    dsimp only
    split <;>
      simp [validate_api_key_success, validate_api_key_sections, hv,
        reporter_chain_sections, full_section_titles]

/-- Shape of a run whose arguments parse, whose API key resolves, and whose
validation probe does not succeed: exit status 1, only the validation
header entered, and exactly one request issued. -/
theorem main_run_invalid (DD_API_KEY DD_APP_KEY : String)
    (arg_api_key arg_app_key arg_region : Option String)
    (now : Int) (env : Nat → Transport) (args : Args)
    (hp : parse_args arg_api_key arg_app_key arg_region = Except.ok args)
    (hk : resolveKey args.api_key DD_API_KEY ≠ "")
    (hv : (test_endpoint_core "API Key Validation" "Confirms the API key is valid"
      (env 0)).1.1 = false) :
    (main DD_API_KEY DD_APP_KEY arg_api_key arg_app_key arg_region now env).exitCode = 1 ∧
    (main DD_API_KEY DD_APP_KEY arg_api_key arg_app_key arg_region now env).sections =
      ["VALIDATING API KEY"] := by
  unfold main
  rw [hp]
  split
  next heq => exact Except.noConfusion heq
  next args2 heq =>
    injection heq with h
    subst h
    rw [if_neg hk]
    dsimp only
    split <;>
      simp [validate_api_key_success, validate_api_key_sections, hv]

/-! The claims. -/

/-- C1: every received HTTP response is classified solely by its status
code: a 200 yields the accessible classification with the body parsed as
JSON (the empty object for an empty body) and a (True, parsed-body)
return; 403 yields forbidden, 401 unauthorized, 404 not-found; any other
status yields the "Status code" outcome with the literal code; every
non-200 classification returns (False, None). -/
theorem spec_C1 (name description : String) (r : HttpResponse) :
    (r.status_code = 200 → r.text = "" →
      test_endpoint_core name description (Transport.resp r) =
        ((true, some (Json.obj [])),
         [print_success (name ++ ": ACCESSIBLE")] ++
           (if description != "" then [print_info ("  → " ++ description)] else []))) ∧
    (r.status_code = 200 → r.text ≠ "" → ∀ j, r.json = Except.ok j →
      test_endpoint_core name description (Transport.resp r) =
        ((true, some j),
         [print_success (name ++ ": ACCESSIBLE")] ++
           (if description != "" then [print_info ("  → " ++ description)] else []))) ∧
    (r.status_code = 403 →
      test_endpoint_core name description (Transport.resp r) =
        ((false, none), [print_error (name ++ ": FORBIDDEN (403)")])) ∧
    (r.status_code = 401 →
      test_endpoint_core name description (Transport.resp r) =
        ((false, none), [print_error (name ++ ": UNAUTHORIZED (401)")])) ∧
    (r.status_code = 404 →
      test_endpoint_core name description (Transport.resp r) =
        ((false, none), [print_warning (name ++ ": NOT FOUND (404)")])) ∧
    (r.status_code ≠ 200 → r.status_code ≠ 403 → r.status_code ≠ 401 →
      r.status_code ≠ 404 →
      test_endpoint_core name description (Transport.resp r) =
        ((false, none), [print_warning (name ++ ": Status " ++ toString r.status_code)])) := by
  refine ⟨?_, ?_, ?_, ?_, ?_, ?_⟩
  · intro h200 htext
    simp [test_endpoint_core, h200, htext]
  · intro h200 hne j hj
    simp [test_endpoint_core, h200, hne, hj]
  · intro h403
    simp [test_endpoint_core, h403]
  · intro h401
    simp [test_endpoint_core, h401]
  · intro h404
    simp [test_endpoint_core, h404]
  · intro h1 h2 h3 h4
    simp [test_endpoint_core, h1, h2, h3, h4]

/-- Witness for C1 at a concrete 200 response with a non-empty JSON body. -/
theorem spec_C1_witness :
    test_endpoint_core "T" "" (Transport.resp ⟨200, "b", Except.ok (Json.str "v")⟩) =
      ((true, some (Json.str "v")),
       [print_success ("T" ++ ": ACCESSIBLE")] ++
         (if ("" : String) != "" then [print_info ("  → " ++ "")] else [])) :=
  (spec_C1 "T" "" ⟨200, "b", Except.ok (Json.str "v")⟩).2.1 rfl (by decide)
    (Json.str "v") rfl

/-- C2: when the underlying HTTP call raises, test_endpoint catches the
exception, prints an error line carrying the exception message, and
returns (False, None); nothing propagates, and a run whose every probe
after validation raises still executes every section to completion. -/
theorem spec_C2 (name : String) (method : Method) (endpoint : String)
    (data : Option Json) (description : String) (s : RunState) (msg : String)
    (henv : s.env s.calls = Transport.exn msg) :
    (test_endpoint name method endpoint data description s).1 = (false, none) ∧
    (test_endpoint name method endpoint data description s).2.output =
      s.output ++ [print_error (name ++ ": Error - " ++ msg)] ∧
    (∀ (key : String) (t0 : Transport),
      (test_endpoint_core "API Key Validation" "Confirms the API key is valid" t0).1.1 = true →
      key ≠ "" →
      (main "" "" (some key) none none s.now
        (fun k => if k = 0 then t0 else Transport.exn msg)).exitCode = 0 ∧
      (main "" "" (some key) none none s.now
        (fun k => if k = 0 then t0 else Transport.exn msg)).sections = full_section_titles) := by
  refine ⟨?_, ?_, ?_⟩
  · simp [henv, test_endpoint_core]
  · simp [henv, test_endpoint_core]
  · intro key t0 hval hkey
    refine main_run_valid "" "" (some key) none none s.now _ ⟨some key, none, "us1"⟩ rfl ?_ ?_
    · simp [resolveKey, hkey]
    · simpa using hval

/-- Witness for C2 at a concrete raising transport. -/
theorem spec_C2_witness :
    (test_endpoint "N" Method.GET "/x" none "" c2state).1 = (false, none) :=
  (spec_C2 "N" Method.GET "/x" none "" c2state "boom" rfl).1

/-- C3: when no API key is resolvable from the positional argument or the
environment variable, the program prints the usage/error message and exits
with status 1 having issued zero HTTP requests. -/
theorem spec_C3 (DD_API_KEY DD_APP_KEY : String)
    (arg_api_key arg_app_key arg_region : Option String)
    (now : Int) (env : Nat → Transport) (args : Args)
    (hp : parse_args arg_api_key arg_app_key arg_region = Except.ok args)
    (hk : resolveKey args.api_key DD_API_KEY = "") :
    (main DD_API_KEY DD_APP_KEY arg_api_key arg_app_key arg_region now env).exitCode = 1 ∧
    (main DD_API_KEY DD_APP_KEY arg_api_key arg_app_key arg_region now env).requests = [] ∧
    (main DD_API_KEY DD_APP_KEY arg_api_key arg_app_key arg_region now env).output =
      missingKeyLines := by
  unfold main
  rw [hp]
  split
  next heq => exact Except.noConfusion heq
  next args2 heq =>
    injection heq with h
    subst h
    rw [if_pos hk]
    exact ⟨rfl, rfl, rfl⟩

/-- Witness for C3: no positional key, empty environment. -/
theorem spec_C3_witness :
    (main "" "" none none none 0 (fun _ => Transport.exn "e")).exitCode = 1 ∧
    (main "" "" none none none 0 (fun _ => Transport.exn "e")).requests = [] ∧
    (main "" "" none none none 0 (fun _ => Transport.exn "e")).output = missingKeyLines :=
  spec_C3 "" "" none none none 0 (fun _ => Transport.exn "e") ⟨none, none, "us1"⟩ rfl rfl

/-- C4: with a resolvable key, a validation probe that does not come back
accessible makes the program exit with status 1 before any section
reporter runs; a successful validation makes the program run every section
reporter and exit with status 0 whatever the remaining probes return. -/
theorem spec_C4 (DD_API_KEY DD_APP_KEY : String)
    (arg_api_key arg_app_key arg_region : Option String)
    (now : Int) (env : Nat → Transport) (args : Args)
    (hp : parse_args arg_api_key arg_app_key arg_region = Except.ok args)
    (hk : resolveKey args.api_key DD_API_KEY ≠ "") :
    ((test_endpoint_core "API Key Validation" "Confirms the API key is valid"
        (env 0)).1.1 = false →
      (main DD_API_KEY DD_APP_KEY arg_api_key arg_app_key arg_region now env).exitCode = 1 ∧
      (main DD_API_KEY DD_APP_KEY arg_api_key arg_app_key arg_region now env).sections =
        ["VALIDATING API KEY"]) ∧
    ((test_endpoint_core "API Key Validation" "Confirms the API key is valid"
        (env 0)).1.1 = true →
      (main DD_API_KEY DD_APP_KEY arg_api_key arg_app_key arg_region now env).exitCode = 0 ∧
      (main DD_API_KEY DD_APP_KEY arg_api_key arg_app_key arg_region now env).sections =
        full_section_titles) :=
  ⟨fun hv => main_run_invalid DD_API_KEY DD_APP_KEY arg_api_key arg_app_key arg_region
      now env args hp hk hv,
   fun hv => main_run_valid DD_API_KEY DD_APP_KEY arg_api_key arg_app_key arg_region
      now env args hp hk hv⟩

/-- Witness for C4: a 200 validation response runs the whole sequence. -/
theorem spec_C4_witness :
    (main "" "" (some "k") none none 0
      (fun _ => Transport.resp ⟨200, "", Except.ok (Json.obj [])⟩)).exitCode = 0 ∧
    (main "" "" (some "k") none none 0
      (fun _ => Transport.resp ⟨200, "", Except.ok (Json.obj [])⟩)).sections =
      full_section_titles :=
  (spec_C4 "" "" (some "k") none none 0
    (fun _ => Transport.resp ⟨200, "", Except.ok (Json.obj [])⟩)
    ⟨some "k", none, "us1"⟩ rfl (by decide)).2 rfl

theorem toString_twelve : toString (12 : Nat) = "12" := rfl

theorem toString_three : toString (3 : Nat) = "3" := rfl

theorem toString_two : toString (2 : Nat) = "2" := rfl

/-- C5 counterexample: on an accessible API-key list of twelve items,
`enumerate_api_keys` prints the three header lines, the status line, the
description line, the count line and the first five key lines — eleven
lines in all — and no line of its output mentions "more" at all, so no
"...and 7 more" trailing line is printed. -/
theorem spec_C5_counterexample :
    twelveKeys.length = 12 ∧
    (test_endpoint_core "List API Keys" "All API keys in the organization"
      (c5state.env c5state.calls)).1.1 = true ∧
    (enumerate_api_keys c5state).output.length = 11 ∧
    (enumerate_api_keys c5state).output.filter
      (fun l => containsMore l.data) = [] := by
  refine ⟨rfl, rfl, ?_, ?_⟩ <;> rfl

/-- C5 as amended: of the cited collection-summarizing reporters,
`enumerate_users` prints the first 10 of 12 items followed by an exact
"... and 2 more" line; `enumerate_api_keys` prints only the first 5 of 12
items with no trailing line; `enumerate_hosts` prints the first 5 of 12
items followed by a count-less "... and more" line; given 3 items each of
the three prints all 3 items with no trailing line. -/
theorem spec_C5_amended (s : RunState) (items : List Json) :
    (s.env s.calls = listBody "data" items → items.length = 12 →
      (enumerate_users s).output = s.output ++ print_header_lines "USERS" ++
        [print_success "List Users: ACCESSIBLE",
         print_info "  → All users in the organization",
         print_info "  Found 12 users"] ++
        (items.take 10).map userLine ++
        [print_info "    ... and 2 more"]) ∧
    (s.env s.calls = listBody "data" items → items.length = 3 →
      (enumerate_users s).output = s.output ++ print_header_lines "USERS" ++
        [print_success "List Users: ACCESSIBLE",
         print_info "  → All users in the organization",
         print_info "  Found 3 users"] ++
        items.map userLine) ∧
    (s.env s.calls = listBody "data" items → items.length = 12 →
      (enumerate_api_keys s).output = s.output ++ print_header_lines "API KEYS" ++
        [print_success "List API Keys: ACCESSIBLE",
         print_info "  → All API keys in the organization",
         print_info "  Found 12 API keys"] ++
        (items.take 5).map apiKeyLine) ∧
    (s.env s.calls = listBody "data" items → items.length = 3 →
      (enumerate_api_keys s).output = s.output ++ print_header_lines "API KEYS" ++
        [print_success "List API Keys: ACCESSIBLE",
         print_info "  → All API keys in the organization",
         print_info "  Found 3 API keys"] ++
        items.map apiKeyLine) ∧
    (s.env s.calls = listBody "host_list" items → items.length = 12 →
      (enumerate_hosts s).output = s.output ++ print_header_lines "HOSTS" ++
        [print_success "List Hosts: ACCESSIBLE",
         print_info "  → All monitored hosts",
         print_info "  Total hosts: 12"] ++
        (items.take 5).map hostLine ++
        [print_info "    ... and more"]) ∧
    (s.env s.calls = listBody "host_list" items → items.length = 3 →
      (enumerate_hosts s).output = s.output ++ print_header_lines "HOSTS" ++
        [print_success "List Hosts: ACCESSIBLE",
         print_info "  → All monitored hosts",
         print_info "  Total hosts: 3"] ++
        items.map hostLine) := by
  refine ⟨?_, ?_, ?_, ?_, ?_, ?_⟩
  · intro henv h12
    unfold enumerate_users
    dsimp only
    simp [test_endpoint_core, truthyOpt, Json.truthy, theData, Json.getD, Json.get?,
      Json.items, foldl_print, henv, listBody, h12, toString_twelve, toString_two,
      List.append_assoc]
  · intro henv h3
    have htake : items.take 10 = items := List.take_of_length_le (by omega)
    unfold enumerate_users
    dsimp only
    simp [test_endpoint_core, truthyOpt, Json.truthy, theData, Json.getD, Json.get?,
      Json.items, foldl_print, henv, listBody, h3, htake, toString_three,
      List.append_assoc]
  · intro henv h12
    unfold enumerate_api_keys
    dsimp only
    simp [test_endpoint_core, truthyOpt, Json.truthy, theData, Json.getD, Json.get?,
      Json.items, foldl_print, henv, listBody, h12, toString_twelve,
      List.append_assoc]
  · intro henv h3
    have htake : items.take 5 = items := List.take_of_length_le (by omega)
    unfold enumerate_api_keys
    dsimp only
    simp [test_endpoint_core, truthyOpt, Json.truthy, theData, Json.getD, Json.get?,
      Json.items, foldl_print, henv, listBody, h3, htake, toString_three,
      List.append_assoc]
  · intro henv h12
    unfold enumerate_hosts
    dsimp only
    simp [test_endpoint_core, truthyOpt, Json.truthy, theData, Json.getD, Json.get?,
      Json.items, foldl_print, henv, listBody, h12, toString_twelve,
      List.append_assoc]
    rfl
  · intro henv h3
    have htake : items.take 5 = items := List.take_of_length_le (by omega)
    unfold enumerate_hosts
    dsimp only
    simp [test_endpoint_core, truthyOpt, Json.truthy, theData, Json.getD, Json.get?,
      Json.items, foldl_print, henv, listBody, h3, htake, toString_three,
      List.append_assoc]
    rfl

/-- Witness for the amended C5 at a concrete twelve-item key list. -/
theorem spec_C5_amended_witness :
    (enumerate_api_keys c5state).output = c5state.output ++ print_header_lines "API KEYS" ++
      [print_success "List API Keys: ACCESSIBLE",
       print_info "  → All API keys in the organization",
       print_info "  Found 12 API keys"] ++
      (twelveKeys.take 5).map apiKeyLine :=
  (spec_C5_amended c5state twelveKeys).2.2.1 rfl rfl

/-- C6: each of the five region choices resolves to exactly its fixed
vendor host, the default region (no --region flag) is us1 and its base URL
is used for the actual probing, and any other region value is rejected by
the argument parser (argparse exit status 2) before any request is
issued. -/
theorem spec_C6 :
    regionBaseURL "us1" = "https://api.datadoghq.com" ∧
    regionBaseURL "us3" = "https://api.us3.datadoghq.com" ∧
    regionBaseURL "us5" = "https://api.us5.datadoghq.com" ∧
    regionBaseURL "eu" = "https://api.datadoghq.eu" ∧
    regionBaseURL "ap1" = "https://api.ap1.datadoghq.com" ∧
    (∀ a b : Option String, parse_args a b none = Except.ok ⟨a, b, "us1"⟩) ∧
    (∀ (DD_API_KEY DD_APP_KEY : String) (a b : Option String) (r : String)
       (now : Int) (env : Nat → Transport), r ∉ region_choices →
      (main DD_API_KEY DD_APP_KEY a b (some r) now env).exitCode = 2 ∧
      (main DD_API_KEY DD_APP_KEY a b (some r) now env).requests = []) ∧
    (∀ now : Int,
      (main "k" "" none none none now (fun _ => Transport.exn "e")).requests =
        [⟨Method.GET, "https://api.datadoghq.com/api/v1/validate",
          get_headers "k" "", none⟩]) := by
  refine ⟨rfl, rfl, rfl, rfl, rfl, fun a b => rfl, ?_, fun now => rfl⟩
  intro DD_API_KEY DD_APP_KEY a b r now env hr
  have hp : parse_args a b (some r) = Except.error 2 := by
    simp [parse_args, hr]
  unfold main
  rw [hp]
  split
  next code heq =>
    injection heq with h
    subst h
    exact ⟨rfl, rfl⟩
  next heq => exact Except.noConfusion heq

/-- Witness for C6 at a rejected region value. -/
theorem spec_C6_witness :
    (main "x" "" none none (some "mars") 0 (fun _ => Transport.exn "e")).exitCode = 2 ∧
    (main "x" "" none none (some "mars") 0 (fun _ => Transport.exn "e")).requests = [] :=
  spec_C6.2.2.2.2.2.2.1 "x" "" none none "mars" 0 (fun _ => Transport.exn "e") (by decide)

/-- C7: when the metrics probe is issued its from parameter equals the
current epoch second minus 3600, and when the events probe is issued its
start parameter equals the current epoch second minus 86400 with end equal
to the current epoch second. -/
theorem spec_C7 (s : RunState) :
    (enumerate_metrics s).requests = s.requests ++
      [⟨Method.GET, s.BASE_URL ++ ("/api/v1/metrics?from=" ++ toString (s.now - 3600)),
        get_headers s.API_KEY s.APP_KEY, none⟩] ∧
    (enumerate_events s).requests = s.requests ++
      [⟨Method.GET, s.BASE_URL ++ ("/api/v1/events?start=" ++ toString (s.now - 86400) ++
          "&end=" ++ toString s.now),
        get_headers s.API_KEY s.APP_KEY, none⟩] := by
  constructor
  · unfold enumerate_metrics
    dsimp only
    split
    · split <;> simp [foldl_print]
    · simp
  · unfold enumerate_events
    dsimp only
    split <;> simp

/-- C8: after a successful validation probe every section reporter runs
exactly once in the fixed documented order (witnessed by the header-title
trace), whatever the individual probe outcomes; and the integrations
section issues exactly the six fixed integration probes, each a GET with
no request body. -/
theorem spec_C8 (DD_API_KEY DD_APP_KEY : String)
    (arg_api_key arg_app_key arg_region : Option String)
    (now : Int) (env : Nat → Transport) (args : Args)
    (hp : parse_args arg_api_key arg_app_key arg_region = Except.ok args)
    (hk : resolveKey args.api_key DD_API_KEY ≠ "")
    (hv : (test_endpoint_core "API Key Validation" "Confirms the API key is valid"
      (env 0)).1.1 = true) :
    (main DD_API_KEY DD_APP_KEY arg_api_key arg_app_key arg_region now env).sections =
      full_section_titles ∧
    (∀ s : RunState, (enumerate_integrations s).requests = s.requests ++
      [⟨Method.GET, s.BASE_URL ++ "/api/v1/integration/aws",
        get_headers s.API_KEY s.APP_KEY, none⟩,
       ⟨Method.GET, s.BASE_URL ++ "/api/v1/integration/azure",
        get_headers s.API_KEY s.APP_KEY, none⟩,
       ⟨Method.GET, s.BASE_URL ++ "/api/v1/integration/gcp",
        get_headers s.API_KEY s.APP_KEY, none⟩,
       ⟨Method.GET, s.BASE_URL ++ "/api/v1/integration/slack",
        get_headers s.API_KEY s.APP_KEY, none⟩,
       ⟨Method.GET, s.BASE_URL ++ "/api/v1/integration/pagerduty",
        get_headers s.API_KEY s.APP_KEY, none⟩,
       ⟨Method.GET, s.BASE_URL ++ "/api/v1/integration/webhooks/configuration/webhooks",
        get_headers s.API_KEY s.APP_KEY, none⟩]) := by
  refine ⟨(main_run_valid DD_API_KEY DD_APP_KEY arg_api_key arg_app_key arg_region
    now env args hp hk hv).2, ?_⟩
  intro s
  unfold enumerate_integrations
  simp [integrationsList, List.append_assoc]

/-- Witness for C8: a validating key runs the full section sequence. -/
theorem spec_C8_witness :
    (main "" "" (some "key") none none 0
      (fun _ => Transport.resp ⟨200, "", Except.ok (Json.obj [])⟩)).sections =
      full_section_titles :=
  (spec_C8 "" "" (some "key") none none 0
    (fun _ => Transport.resp ⟨200, "", Except.ok (Json.obj [])⟩)
    ⟨some "key", none, "us1"⟩ rfl (by decide) rfl).1

/-- C9 counterexample: a run with no application key issues its probe
request with only the DD-API-KEY credential header; the DD-APPLICATION-KEY
header is absent, so not every run sends both credential headers. -/
theorem spec_C9_counterexample :
    (main "k" "" none none none 0 (fun _ => Transport.exn "boom")).requests =
      [⟨Method.GET, "https://api.datadoghq.com/api/v1/validate",
        [("DD-API-KEY", "k"), ("Content-Type", "application/json")], none⟩] ∧
    ([("DD-API-KEY", "k"), ("Content-Type", "application/json")] :
      List (String × String)).lookup "DD-APPLICATION-KEY" = none :=
  ⟨rfl, rfl⟩

/-- C9 as amended: every probe request carries the DD-API-KEY header with
the API key; the DD-APPLICATION-KEY header is included exactly when the
configured application key is non-empty; and every test_endpoint call
records a request built with the get_headers headers of the run
credentials. -/
theorem spec_C9_amended (API_KEY APP_KEY : String) (name : String) (m : Method)
    (endpoint : String) (d : Option Json) (desc : String) (s : RunState) :
    (get_headers API_KEY APP_KEY).lookup "DD-API-KEY" = some API_KEY ∧
    (get_headers API_KEY APP_KEY).lookup "DD-APPLICATION-KEY" =
      (if APP_KEY = "" then none else some APP_KEY) ∧
    (test_endpoint name m endpoint d desc s).2.requests =
      s.requests ++ [⟨m, s.BASE_URL ++ endpoint, get_headers s.API_KEY s.APP_KEY, d⟩] := by
  refine ⟨?_, ?_, rfl⟩
  · unfold get_headers
    dsimp only
    split <;> simp [List.lookup]
  · unfold get_headers
    dsimp only
    split <;> rename_i h
    · simp only [bne_iff_ne, ne_eq] at h
      simp [List.lookup, h]
    · simp only [bne_iff_ne, ne_eq, not_not] at h
      simp [List.lookup, h]

/-- C10: a 200 response with a non-empty body that fails JSON parsing makes
test_endpoint return (False, None) — the parse exception is caught by the
surrounding handler after the accessible line was already printed — and a
reporter receiving this result skips its summarization entirely. -/
theorem spec_C10 (name description : String) (r : HttpResponse) (e : String)
    (h200 : r.status_code = 200) (hne : r.text ≠ "") (hbad : r.json = Except.error e) :
    test_endpoint_core name description (Transport.resp r) =
      ((false, none),
       ([print_success (name ++ ": ACCESSIBLE")] ++
          (if description != "" then [print_info ("  → " ++ description)] else [])) ++
         [print_error (name ++ ": Error - " ++ e)]) ∧
    (∀ s : RunState, s.env s.calls = Transport.resp r →
      (enumerate_users s).output = s.output ++ print_header_lines "USERS" ++
        [print_success "List Users: ACCESSIBLE",
         print_info "  → All users in the organization",
         print_error ("List Users: Error - " ++ e)]) := by
  constructor
  · simp [test_endpoint_core, h200, hne, hbad]
  · intro s henv
    unfold enumerate_users
    dsimp only
    simp [test_endpoint_core, henv, h200, hne, hbad, truthyOpt, List.append_assoc]

/-- Witness for C10 at a concrete unparseable 200 response. -/
theorem spec_C10_witness :
    test_endpoint_core "T" "" (Transport.resp ⟨200, "nope", Except.error "Expecting value"⟩) =
      ((false, none),
       ([print_success ("T" ++ ": ACCESSIBLE")] ++
          (if ("" : String) != "" then [print_info ("  → " ++ "")] else [])) ++
         [print_error ("T" ++ ": Error - " ++ "Expecting value")]) :=
  (spec_C10 "T" "" ⟨200, "nope", Except.error "Expecting value"⟩ "Expecting value"
    rfl (by decide) rfl).1

end DatadogEnum
